import Mathlib

/-!
Verification of the booster execution core (src/booster) against its
natural-language specification.

The development shallowly embeds the Rust sources:
  * src/booster/src/pool.rs     — WasmPool: lease, update_module, run
  * src/booster/src/postgres.rs — pg host calls and guest-memory marshalling
  * src/booster/src/redis.rs    — redis host calls and guest-memory marshalling
  * src/booster/src/main.rs     — module selection (load_best_module)

Machine integers are modelled as Nat/Int with explicit wrapping where the
source casts (`usize as i32`); guest linear memory is a byte list; backend
connections (bb8 pools, tokio-postgres, redis) are oracles supplied as
function-valued records; every memory access and backend invocation is
logged as an Event so that claims of the form "without reading memory" or
"without performing I/O" are expressible.
-/

namespace Booster

/-! ### Bytes and UTF-8 (Rust String::from_utf8) -/

/-- One step of UTF-8 decoding over a byte list: returns the decoded
codepoint and the remaining bytes, or none when the prefix is not valid
UTF-8. The accepted byte ranges mirror Rust's String::from_utf8
validation: continuation bytes 0x80–0xBF, no overlong forms (lead bytes
0xC0/0xC1 rejected, 0xE0 requires 0xA0–0xBF, 0xF0 requires 0x90–0xBF),
no surrogates (0xED limited to 0x80–0x9F), maximum U+10FFFF (0xF4 limited
to 0x80–0x8F, lead bytes ≥ 0xF5 rejected). -/
def utf8DecodeChar : List Nat → Option (Nat × List Nat)
  | [] => none
  | b0 :: rest =>
    if b0 < 0x80 then some (b0, rest)
    else if b0 < 0xC2 then none
    else if b0 < 0xE0 then
      match rest with
      | b1 :: r1 =>
        if 0x80 ≤ b1 ∧ b1 < 0xC0 then
          some ((b0 - 0xC0) * 0x40 + (b1 - 0x80), r1)
        else none
      | [] => none
    else if b0 < 0xF0 then
      match rest with
      | b1 :: b2 :: r2 =>
        let lo1 := if b0 = 0xE0 then 0xA0 else 0x80
        let hi1 := if b0 = 0xED then 0xA0 else 0xC0
        if lo1 ≤ b1 ∧ b1 < hi1 ∧ 0x80 ≤ b2 ∧ b2 < 0xC0 then
          some ((b0 - 0xE0) * 0x1000 + (b1 - 0x80) * 0x40 + (b2 - 0x80), r2)
        else none
      | _ => none
    else if b0 < 0xF5 then
      match rest with
      | b1 :: b2 :: b3 :: r3 =>
        let lo1 := if b0 = 0xF0 then 0x90 else 0x80
        let hi1 := if b0 = 0xF4 then 0x90 else 0xC0
        if lo1 ≤ b1 ∧ b1 < hi1 ∧ 0x80 ≤ b2 ∧ b2 < 0xC0 ∧ 0x80 ≤ b3 ∧ b3 < 0xC0 then
          some ((b0 - 0xF0) * 0x40000 + (b1 - 0x80) * 0x1000
                  + (b2 - 0x80) * 0x40 + (b3 - 0x80), r3)
        else none
      | _ => none
    else none

/-- Fuelled UTF-8 decoding loop; each step consumes at least one byte, so
fuel equal to the list length always suffices. -/
def utf8DecodeLoop : Nat → List Nat → Option (List Nat)
  | _, [] => some []
  | 0, _ :: _ => none
  | fuel + 1, l =>
    match utf8DecodeChar l with
    | none => none
    | some (c, rest) =>
      match utf8DecodeLoop fuel rest with
      | none => none
      | some cs => some (c :: cs)

/-- Decode a byte list as UTF-8 (the codepoint sequence), or none when the
bytes are not valid UTF-8; models Rust String::from_utf8. -/
def utf8Decode (l : List Nat) : Option (List Nat) :=
  utf8DecodeLoop l.length l

/-! ### Guest memory and the event log -/

/-- Guest linear memory, a flat byte list (the wasm export named
"memory"); `none` at the host-call sites models a guest that does not
export its memory. -/
abbrev Mem := List Nat

/-- Observable effects of a host call: guest-memory reads and writes
(wasmtime Memory::read / Memory::write) and backend invocations (a call
that reaches the bb8 connection pool and the datastore). -/
inductive Event where
  | memRead (ptr len : Int)
  | memWrite (ptr : Int) (data : List Nat)
  | backendCall (op : String)
deriving DecidableEq

/-- True exactly on guest-memory write events. -/
def Event.isMemWrite : Event → Bool
  | .memWrite _ _ => true
  | _ => false

/-- True exactly on backend-I/O events. -/
def Event.isBackendCall : Event → Bool
  | .backendCall _ => true
  | _ => false

/-- Reads `len` bytes of guest memory at `ptr`; identical copies of this
helper live in postgres.rs and redis.rs (read_guest_bytes). Negative
pointer or length is rejected before the memory is touched; a missing
memory export or an out-of-bounds range fails without a read event. -/
def read_guest_bytes (mem : Option Mem) (ptr len : Int) :
    Except Unit (List Nat × List Event) :=
  if ptr < 0 ∨ len < 0 then .error ()
  else
    match mem with
    | none => .error ()
    | some m =>
      if ptr.toNat + len.toNat ≤ m.length then
        .ok ((m.drop ptr.toNat).take len.toNat, [.memRead ptr len])
      else .error ()

/-- Writes `data` into guest memory at `ptr`; identical copies of this
helper live in postgres.rs and redis.rs (write_guest_bytes). Negative
pointer is rejected before the memory is touched. -/
def write_guest_bytes (mem : Option Mem) (ptr : Int) (data : List Nat) :
    Except Unit (Mem × List Event) :=
  if ptr < 0 then .error ()
  else
    match mem with
    | none => .error ()
    | some m =>
      if ptr.toNat + data.length ≤ m.length then
        .ok (m.take ptr.toNat ++ data ++ m.drop (ptr.toNat + data.length),
             [.memWrite ptr data])
      else .error ()

/-- Rust `usize as i32`: keep the low 32 bits, two's complement. -/
def usizeToI32 (n : Nat) : Int :=
  if n % 2 ^ 32 < 2 ^ 31 then ((n % 2 ^ 32 : Nat) : Int)
  else ((n % 2 ^ 32 : Nat) : Int) - 2 ^ 32

/-- Rust `(n.min(i32::MAX as u64)) as i32` on a u64 rows-affected count:
saturate at INT32_MAX; the cast is then exact. -/
def rowsToI32 (n : Nat) : Int :=
  ((min n (2 ^ 31 - 1) : Nat) : Int)

/-! ### Postgres adapter and host calls (postgres.rs) -/

/-- Oracle for an enabled relational backend. SQL text is the decoded
codepoint list. `execResult` folds bb8 pool acquisition and
Client::execute into one Except (both error paths reach the same `Err`
arm of PostgresHost::exec); `queryPayload` folds PostgresHost::query_json
followed by serde_json::to_vec — query, pool and serialization failures
all reach the single `-1` arm of pg_query, so they are one `.error`. -/
structure PgBackend where
  execResult : List Nat → Except String Nat
  queryPayload : List Nat → Except String (List Nat)

/-- PostgresHost of postgres.rs: `pool` is `none` exactly when no
POSTGRES_URL / SASSPB_POSTGRES_URL is configured (adapter disabled). -/
structure PostgresHost where
  pool : Option PgBackend

/-- The distinguished "not configured" error of PostgresHost::disabled_error. -/
def PostgresHost.disabled_error : String :=
  "postgres disabled (POSTGRES_URL or SASSPB_POSTGRES_URL not set)"

/-- PostgresHost::exec: with no pool the disabled error is returned
without touching the backend; otherwise the oracle answers and a backend
I/O event is logged. -/
def PostgresHost.exec (h : PostgresHost) (sql : List Nat) :
    Except String Nat × List Event :=
  match h.pool with
  | none => (.error PostgresHost.disabled_error, [])
  | some b => (b.execResult sql, [.backendCall "pg execute"])

/-- PostgresHost::query_json followed by serde_json::to_vec, as consumed
by pg_query: with no pool the disabled error, else the serialized payload
bytes from the oracle plus a backend I/O event. -/
def PostgresHost.query_payload (h : PostgresHost) (sql : List Nat) :
    Except String (List Nat) × List Event :=
  match h.pool with
  | none => (.error PostgresHost.disabled_error, [])
  | some b => (b.queryPayload sql, [.backendCall "pg query"])

/-- Host function bosbase_postgres/pg_exec(sql_ptr, sql_len) → i32. -/
def pg_exec (pg : PostgresHost) (mem : Option Mem) (sptr slen : Int) :
    Int × List Event :=
  match read_guest_bytes mem sptr slen with
  | .error _ => (-2, [])
  | .ok (bytes, ev) =>
    match utf8Decode bytes with
    | none => (-2, ev)
    | some sql =>
      match PostgresHost.exec pg sql with
      | (.ok n, bev) => (rowsToI32 n, ev ++ bev)
      | (.error _, bev) => (-1, ev ++ bev)

/-- Host function bosbase_postgres/pg_query(sql_ptr, sql_len, out_ptr,
out_len) → i32. The size guard is the source's
`(payload.len() as i32) > out_len`. -/
def pg_query (pg : PostgresHost) (mem : Option Mem)
    (sptr slen out_ptr out_len : Int) : Int × List Event :=
  if out_len < 0 then (-3, [])
  else
    match read_guest_bytes mem sptr slen with
    | .error _ => (-3, [])
    | .ok (bytes, ev) =>
      match utf8Decode bytes with
      | none => (-3, ev)
      | some sql =>
        match PostgresHost.query_payload pg sql with
        | (.error _, bev) => (-1, ev ++ bev)
        | (.ok payload, bev) =>
          if out_len < usizeToI32 payload.length then (-2, ev ++ bev)
          else
            match write_guest_bytes mem out_ptr payload with
            | .error _ => (-3, ev ++ bev)
            | .ok (_, wev) => (usizeToI32 payload.length, ev ++ bev ++ wev)

/-! ### Redis adapter and host calls (redis.rs) -/

/-- Oracle for an enabled key-value backend; keys are decoded codepoint
lists, values raw byte lists. Each field folds bb8 pool acquisition and
the redis command into one Except, as all those failures reach the same
`Err` arm of the corresponding host call. -/
structure RedisBackend where
  getResult : List Nat → Except String (Option (List Nat))
  setResult : List Nat → List Nat → Except String Unit
  setExResult : List Nat → List Nat → Nat → Except String Unit
  existsResult : List Nat → Except String Bool
  delResult : List Nat → Except String Nat

/-- RedisHost of redis.rs: `pool` is `none` exactly when no REDIS_URL is
configured (adapter disabled). -/
structure RedisHost where
  pool : Option RedisBackend

/-- The distinguished "not configured" error of RedisHost::disabled_error. -/
def RedisHost.disabled_error : String := "redis disabled (REDIS_URL not set)"

/-- RedisHost::get. -/
def RedisHost.get (r : RedisHost) (key : List Nat) :
    Except String (Option (List Nat)) × List Event :=
  match r.pool with
  | none => (.error RedisHost.disabled_error, [])
  | some b => (b.getResult key, [.backendCall "redis GET"])

/-- RedisHost::set. -/
def RedisHost.set (r : RedisHost) (key val : List Nat) :
    Except String Unit × List Event :=
  match r.pool with
  | none => (.error RedisHost.disabled_error, [])
  | some b => (b.setResult key val, [.backendCall "redis SET"])

/-- RedisHost::set_ex (SET with TTL in seconds, a u64). -/
def RedisHost.set_ex (r : RedisHost) (key val : List Nat) (ttl : Nat) :
    Except String Unit × List Event :=
  match r.pool with
  | none => (.error RedisHost.disabled_error, [])
  | some b => (b.setExResult key val ttl, [.backendCall "redis SETEX"])

/-- Models the RedisHost method named exists (EXISTS command). -/
def RedisHost.key_exists (r : RedisHost) (key : List Nat) :
    Except String Bool × List Event :=
  match r.pool with
  | none => (.error RedisHost.disabled_error, [])
  | some b => (b.existsResult key, [.backendCall "redis EXISTS"])

/-- RedisHost::del. -/
def RedisHost.del (r : RedisHost) (key : List Nat) :
    Except String Nat × List Event :=
  match r.pool with
  | none => (.error RedisHost.disabled_error, [])
  | some b => (b.delResult key, [.backendCall "redis DEL"])

/-- Host function bosbase_redis/redis_get(k_ptr, k_len, out_ptr, out_len)
→ i32. The size guard is the source's `(val.len() as i32) > out_len`. -/
def redis_get (r : RedisHost) (mem : Option Mem)
    (kptr klen out_ptr out_len : Int) : Int × List Event :=
  if out_len < 0 then (-3, [])
  else
    match read_guest_bytes mem kptr klen with
    | .error _ => (-3, [])
    | .ok (kbytes, ev) =>
      match utf8Decode kbytes with
      | none => (-3, ev)
      | some key =>
        match RedisHost.get r key with
        | (.error _, bev) => (-4, ev ++ bev)
        | (.ok none, bev) => (-1, ev ++ bev)
        | (.ok (some val), bev) =>
          if out_len < usizeToI32 val.length then (-2, ev ++ bev)
          else
            match write_guest_bytes mem out_ptr val with
            | .error _ => (-3, ev ++ bev)
            | .ok (_, wev) => (usizeToI32 val.length, ev ++ bev ++ wev)

/-- Host function bosbase_redis/redis_set(k_ptr, k_len, v_ptr, v_len) →
i32; the source reads the key bytes, then the value bytes, then decodes
the key as UTF-8. -/
def redis_set (r : RedisHost) (mem : Option Mem)
    (kptr klen vptr vlen : Int) : Int × List Event :=
  match read_guest_bytes mem kptr klen with
  | .error _ => (-2, [])
  | .ok (kbytes, kev) =>
    match read_guest_bytes mem vptr vlen with
    | .error _ => (-2, kev)
    | .ok (vbytes, vev) =>
      match utf8Decode kbytes with
      | none => (-2, kev ++ vev)
      | some key =>
        match RedisHost.set r key vbytes with
        | (.ok _, bev) => (0, kev ++ vev ++ bev)
        | (.error _, bev) => (-1, kev ++ vev ++ bev)

/-- Host function bosbase_redis/redis_set_ex(k_ptr, k_len, v_ptr, v_len,
ttl_s) → i32; a negative ttl is rejected first, before any memory access. -/
def redis_set_ex (r : RedisHost) (mem : Option Mem)
    (kptr klen vptr vlen ttl_s : Int) : Int × List Event :=
  if ttl_s < 0 then (-2, [])
  else
    match read_guest_bytes mem kptr klen with
    | .error _ => (-2, [])
    | .ok (kbytes, kev) =>
      match read_guest_bytes mem vptr vlen with
      | .error _ => (-2, kev)
      | .ok (vbytes, vev) =>
        match utf8Decode kbytes with
        | none => (-2, kev ++ vev)
        | some key =>
          match RedisHost.set_ex r key vbytes ttl_s.toNat with
          | (.ok _, bev) => (0, kev ++ vev ++ bev)
          | (.error _, bev) => (-1, kev ++ vev ++ bev)

/-- Host function bosbase_redis/redis_exists(k_ptr, k_len) → i32. -/
def redis_exists (r : RedisHost) (mem : Option Mem) (kptr klen : Int) :
    Int × List Event :=
  match read_guest_bytes mem kptr klen with
  | .error _ => (-1, [])
  | .ok (kbytes, ev) =>
    match utf8Decode kbytes with
    | none => (-1, ev)
    | some key =>
      match RedisHost.key_exists r key with
      | (.ok true, bev) => (1, ev ++ bev)
      | (.ok false, bev) => (0, ev ++ bev)
      | (.error _, bev) => (-1, ev ++ bev)

/-- Host function bosbase_redis/redis_del(k_ptr, k_len) → i32; a
successful DEL returns `n.min(i32::MAX as u64) as i32`. -/
def redis_del (r : RedisHost) (mem : Option Mem) (kptr klen : Int) :
    Int × List Event :=
  match read_guest_bytes mem kptr klen with
  | .error _ => (-1, [])
  | .ok (kbytes, ev) =>
    match utf8Decode kbytes with
    | none => (-1, ev)
    | some key =>
      match RedisHost.del r key with
      | (.ok n, bev) => (rowsToI32 n, ev ++ bev)
      | (.error _, bev) => (-1, ev ++ bev)

/-! ### Execution pool (pool.rs) -/

/-- PooledStore of pool.rs: a reusable VM execution context tagged with
the pool generation under which it was returned, its instantiation count
(u32) and an opaque store identity. -/
structure PooledStore where
  generation : Nat
  instantiations : Nat
  store : Nat
deriving DecidableEq

/-- The pool state touched by lease/update_module: the active module
(opaque identity behind the RwLock), the atomic generation counter and
the mutex-guarded free list. The Vec free list pushes and pops at its
end; the list head here is that end (the LIFO top). -/
structure PoolState where
  module : Nat
  generation : Nat
  free : List PooledStore
deriving DecidableEq

/-- The data carried by a Lease: the generation sampled at lease time,
the instantiation count and the store (opaque identity). -/
structure LeaseData where
  generation : Nat
  instantiations : Nat
  store : Nat
deriving DecidableEq

/-- WasmPool::new with max_concurrency permits: the source clamps the
semaphore capacity with `max_concurrency.max(1)`. -/
def poolCap (max_concurrency : Nat) : Nat := max max_concurrency 1

/-- WasmPool::lease after the permit is acquired: sample the current
generation, pop the free list; the popped store is reused only when its
tag equals the sampled generation, otherwise (and on an empty list) a
fresh store `freshId` with zero instantiations is taken. -/
def lease (s : PoolState) (freshId : Nat) : LeaseData × PoolState :=
  let g := s.generation
  match s.free with
  | [] => (⟨g, 0, freshId⟩, { s with free := [] })
  | p :: rest =>
    if p.generation = g then
      (⟨g, p.instantiations, p.store⟩, { s with free := rest })
    else
      (⟨g, 0, freshId⟩, { s with free := rest })

/-- WasmPool::update_module: replace the module under the write-lock,
increment the generation counter, clear the free list. -/
def update_module (s : PoolState) (m : Nat) : PoolState :=
  { module := m, generation := s.generation + 1, free := [] }

/-- Pool operations interleaved between a module update and a later run:
a further update, a lease acquisition, or a Lease drop pushing its store
back on the free list (Drop for Lease). -/
inductive PoolOp where
  | updateOp (m : Nat)
  | leaseOp (freshId : Nat)
  | dropOp (ps : PooledStore)
deriving DecidableEq

/-- True exactly on module-update operations. -/
def PoolOp.isUpdateOp : PoolOp → Bool
  | .updateOp _ => true
  | _ => false

/-- State transition of one pool operation. -/
def applyOp (s : PoolState) : PoolOp → PoolState
  | .updateOp m => update_module s m
  | .leaseOp f => (lease s f).2
  | .dropOp ps => { s with free := ps :: s.free }

/-- The module a run instantiates: WasmPool::run reads the active module
under the read-lock (`self.module.read().await.clone()`). -/
def runModuleRead (s : PoolState) : Nat := s.module

/-- MAX_STORE_INSTANTIATIONS of WasmPool::run. -/
def MAX_STORE_INSTANTIATIONS : Nat := 1000

/-- Rust u32::saturating_add(1). -/
def u32SaturatingAdd1 (c : Nat) : Nat := min (c + 1) (2 ^ 32 - 1)

/-- Character-list membership of a contiguous pattern, used to model Rust
str::contains on error messages. -/
def startsWithSeg : List Char → List Char → Bool
  | [], _ => true
  | _ :: _, [] => false
  | p :: ps, c :: cs => p = c && startsWithSeg ps cs

/-- True when `pat` occurs contiguously inside the second list. -/
def containsSeg (pat : List Char) : List Char → Bool
  | [] => startsWithSeg pat []
  | l@(_ :: rest) => startsWithSeg pat l || containsSeg pat rest

/-- The recognized instance-count condition of WasmPool::run:
`e.to_string().contains("instance count too high")`. -/
def isTooMany (e : String) : Bool :=
  containsSeg ("instance count too high".toList) e.toList

/-- Oracle for the two possible instantiate_async attempts of one run:
the first attempt on the leased store, and the attempt after the store
has been replaced by a fresh one. -/
structure InstOracle where
  first : Except String Unit
  second : Except String Unit

/-- Result of the store/instantiation phase of WasmPool::run: the lease's
instantiation count after the successful instantiation, whether the store
was pre-emptively replaced because the count had reached
MAX_STORE_INSTANTIATIONS, and whether instantiation was retried after a
too-many-instances failure. -/
structure RunPhaseResult where
  count : Nat
  preRecycled : Bool
  retried : Bool
deriving DecidableEq

/-- The store-recycling and instantiation logic of WasmPool::run (lines
207–247 of pool.rs): pre-emptive recycling at MAX_STORE_INSTANTIATIONS
resets the count to 0; a first-attempt failure whose message contains
"instance count too high" replaces the store, resets the count and
retries exactly once — the second attempt's error propagates whatever its
kind; any other first-attempt failure is returned; after a successful
instantiation the count is incremented with u32 saturation. -/
def run_store_phase (c : Nat) (o : InstOracle) : Except String RunPhaseResult :=
  match o.first with
  | .ok _ =>
    .ok ⟨u32SaturatingAdd1 (if MAX_STORE_INSTANTIATIONS ≤ c then 0 else c),
         decide (MAX_STORE_INSTANTIATIONS ≤ c), false⟩
  | .error e =>
    if isTooMany e then
      match o.second with
      | .ok _ => .ok ⟨u32SaturatingAdd1 0, decide (MAX_STORE_INSTANTIATIONS ≤ c), true⟩
      | .error e2 => .error e2
    else .error e

/-- Instantiation counts along a sequence of successful runs on a single
repeatedly reused store, starting from a fresh store. -/
def run_counts : Nat → Nat
  | 0 => 0
  | n + 1 =>
    match run_store_phase (run_counts n) ⟨.ok (), .ok ()⟩ with
    | .ok r => r.count
    | .error _ => 0

/-! ### Concurrency semaphore (tokio::sync::Semaphore in WasmPool) -/

/-- Semaphore operations: a lease acquires one permit
(acquire_owned), a Lease drop releases it. -/
inductive SemOp where
  | acquire
  | release
deriving DecidableEq

/-- One semaphore step on the count of live permits (live Leases):
acquire suspends (no transition) when the pool is at capacity; release
requires a live lease. -/
def semStep (cap live : Nat) : SemOp → Option Nat
  | .acquire => if live < cap then some (live + 1) else none
  | .release => if 0 < live then some (live - 1) else none

/-- Run a sequence of semaphore operations from a live count. -/
def semRun (cap : Nat) (live : Nat) : List SemOp → Option Nat
  | [] => some live
  | op :: ops =>
    match semStep cap live op with
    | some l => semRun cap l ops
    | none => none

/-! ### Module selection (main.rs, load_best_module) -/

/-- A candidate wasm file as load_best_module observes it: its path, the
result of fs::metadata followed by Metadata::modified (outer none:
metadata itself unreadable; inner none: modification time unreadable;
the Nat is the mtime, 0 standing for UNIX_EPOCH), and the result of
Module::from_file (none: compilation fails). -/
structure Candidate where
  path : String
  fileMeta : Option (Option Nat)
  compiles : Option Nat
deriving DecidableEq

/-- The mtime-gathering loop of load_best_module: a candidate whose
fs::metadata fails is dropped; an unreadable modification time becomes
UNIX_EPOCH (0). -/
def with_mtime (cs : List Candidate) : List (Nat × Candidate) :=
  cs.filterMap fun c =>
    match c.fileMeta with
    | none => none
    | some (some t) => some (t, c)
    | some none => some (0, c)

/-- The sort of load_best_module:
`with_mtime.sort_by(|a, b| b.0.cmp(&a.0))`, a stable sort, newest first. -/
def sortNewestFirst (l : List (Nat × Candidate)) : List (Nat × Candidate) :=
  l.mergeSort fun a b => decide (b.1 ≤ a.1)

/-- load_best_module of main.rs over the candidate list: gather mtimes,
sort newest first, return the first candidate that compiles, an error
when none does. -/
def load_best_module (cs : List Candidate) : Except String Nat :=
  match (sortNewestFirst (with_mtime cs)).findSome? (fun tc => tc.2.compiles) with
  | some m => .ok m
  | none => .error "no valid wasm modules found"

/-- Modelled from the claim wording, for comparison with load_best_module:
EVERY candidate is given a modification time, an unreadable one counting
as the epoch; the source instead drops a candidate whose fs::metadata
call itself fails. -/
def load_best_module_claimed (cs : List Candidate) : Except String Nat :=
  let wm := cs.map fun c =>
    ((match c.fileMeta with
      | some (some t) => t
      | _ => 0), c)
  match (sortNewestFirst wm).findSome? (fun tc => tc.2.compiles) with
  | some m => .ok m
  | none => .error "no valid wasm modules found"

/-! ### Helper lemmas -/

/-- Negative pointer or length makes read_guest_bytes fail before any
memory access. -/
theorem read_guest_bytes_neg (mem : Option Mem) (p l : Int)
    (h : p < 0 ∨ l < 0) : read_guest_bytes mem p l = .error () := by
  unfold read_guest_bytes
  rw [if_pos h]

/-- Negative pointer makes write_guest_bytes fail before any memory
access. -/
theorem write_guest_bytes_neg (mem : Option Mem) (p : Int) (d : List Nat)
    (h : p < 0) : write_guest_bytes mem p d = .error () := by
  unfold write_guest_bytes
  rw [if_pos h]

/-- A successful guest read logs exactly one read event. -/
theorem read_guest_bytes_ok_ev (mem : Option Mem) (p l : Int)
    (b : List Nat) (ev : List Event)
    (h : read_guest_bytes mem p l = .ok (b, ev)) :
    ev = [Event.memRead p l] := by
  unfold read_guest_bytes at h
  split at h
  · exact absurd h (by simp)
  · split at h
    · exact absurd h (by simp)
    · split at h
      · simp only [Except.ok.injEq, Prod.mk.injEq] at h
        exact h.2.symm
      · exact absurd h (by simp)

/-- A backend-call event is not a memory write. -/
theorem Event.not_memWrite_of_backendCall (e : Event)
    (h : e.isBackendCall = true) : e.isMemWrite = false := by
  cases e <;> simp_all [Event.isBackendCall, Event.isMemWrite]

/-- Every event logged by PostgresHost::query_payload is a backend call. -/
theorem query_payload_ev (pg : PostgresHost) (sql : List Nat) :
    ∀ e ∈ (PostgresHost.query_payload pg sql).2, e.isBackendCall = true := by
  unfold PostgresHost.query_payload
  cases pg.pool <;> simp [Event.isBackendCall]

/-- Every event logged by RedisHost::get is a backend call. -/
theorem redisHost_get_ev (r : RedisHost) (key : List Nat) :
    ∀ e ∈ (RedisHost.get r key).2, e.isBackendCall = true := by
  unfold RedisHost.get
  cases r.pool <;> simp [Event.isBackendCall]

/-- Popping the free list never changes the active module. -/
theorem lease_module (s : PoolState) (f : Nat) :
    ((lease s f).2).module = s.module := by
  unfold lease
  cases s.free with
  | nil => rfl
  | cons p rest =>
    by_cases h : p.generation = s.generation <;> simp [h]

/-- A non-update pool operation never changes the active module. -/
theorem applyOp_module_eq (s : PoolState) (op : PoolOp)
    (h : op.isUpdateOp = false) : (applyOp s op).module = s.module := by
  cases op with
  | updateOp m => simp [PoolOp.isUpdateOp] at h
  | leaseOp f => exact lease_module s f
  | dropOp ps => rfl

/-- A sequence of non-update pool operations preserves the active module. -/
theorem foldl_module_eq (ops : List PoolOp) :
    ∀ s : PoolState, (∀ op ∈ ops, op.isUpdateOp = false) →
      (ops.foldl applyOp s).module = s.module := by
  induction ops with
  | nil => intro s _; rfl
  | cons op ops ih =>
    intro s h
    rw [List.foldl_cons,
        ih _ (fun o ho => h o (List.mem_cons_of_mem _ ho)),
        applyOp_module_eq _ _ (h op (List.mem_cons_self _ _))]

/-! ### Claim theorems -/

/-- C1: after acquiring a permit the pool samples the current generation
g and pops a PooledStore from the free list; the popped store is reused
if and only if its generation tag equals g; if the tag differs, or the
free list is empty, a fresh store is constructed; a PooledStore whose tag
differs from the current generation is never reused. -/
theorem C1_lease_generation_gate (s : PoolState) (f : Nat) :
    (s.free = [] → lease s f = (⟨s.generation, 0, f⟩, { s with free := [] })) ∧
    (∀ p rest, s.free = p :: rest →
      (p.generation = s.generation →
        lease s f = (⟨s.generation, p.instantiations, p.store⟩,
                     { s with free := rest })) ∧
      (p.generation ≠ s.generation →
        lease s f = (⟨s.generation, 0, f⟩, { s with free := rest })) ∧
      (f ≠ p.store →
        (((lease s f).1.store = p.store) ↔ p.generation = s.generation))) := by
  constructor
  · intro h
    unfold lease
    rw [h]
  · intro p rest h
    refine ⟨fun hg => ?_, fun hg => ?_, fun hf => ?_⟩
    · unfold lease
      rw [h]
      simp [hg]
    · unfold lease
      rw [h]
      simp [hg]
    · by_cases hg : p.generation = s.generation
      · unfold lease
        rw [h]
        simp [hg]
      · unfold lease
        rw [h]
        simp only [hg, if_false]
        exact ⟨fun hc => absurd hc hf, fun hc => hc.elim⟩

/-- Witness for C1 at concrete inputs: a matching tag is reused with its
count, a stale tag yields the fresh store with count zero. -/
theorem C1_lease_generation_gate_witness :
    lease ⟨5, 3, [⟨3, 7, 42⟩]⟩ 99 = (⟨3, 7, 42⟩, ⟨5, 3, []⟩) ∧
    lease ⟨5, 3, [⟨2, 7, 42⟩]⟩ 99 = (⟨3, 0, 99⟩, ⟨5, 3, []⟩) := by
  constructor
  · exact ((C1_lease_generation_gate ⟨5, 3, [⟨3, 7, 42⟩]⟩ 99).2
      ⟨3, 7, 42⟩ [] rfl).1 rfl
  · exact (((C1_lease_generation_gate ⟨5, 3, [⟨2, 7, 42⟩]⟩ 99).2
      ⟨2, 7, 42⟩ [] rfl).2).1 (by decide)

/-- C2: update_module replaces the active module, increments the
generation counter and clears the free list; every later run whose lease
is acquired after the update (with no further update in between) reads
the new module, never the old one. -/
theorem C2_update_module_swap (s : PoolState) (m : Nat) :
    (update_module s m).module = m ∧
    (update_module s m).generation = s.generation + 1 ∧
    (update_module s m).free = [] ∧
    ∀ ops : List PoolOp, (∀ op ∈ ops, op.isUpdateOp = false) →
      runModuleRead (ops.foldl applyOp (update_module s m)) = m := by
  refine ⟨rfl, rfl, rfl, fun ops h => ?_⟩
  unfold runModuleRead
  rw [foldl_module_eq ops _ h]
  rfl

/-- Witness for C2: after an update to module 9, a lease/drop sequence
still reads module 9. -/
theorem C2_update_module_swap_witness :
    runModuleRead
      ([PoolOp.leaseOp 5, PoolOp.dropOp ⟨1, 0, 5⟩].foldl applyOp
        (update_module ⟨4, 0, [⟨0, 2, 8⟩]⟩ 9)) = 9 ∧
    (update_module ⟨4, 0, [⟨0, 2, 8⟩]⟩ 9).generation = 1 ∧
    (update_module ⟨4, 0, [⟨0, 2, 8⟩]⟩ 9).free = [] := by
  refine ⟨?_, ?_, ?_⟩
  · exact (C2_update_module_swap ⟨4, 0, [⟨0, 2, 8⟩]⟩ 9).2.2.2
      [PoolOp.leaseOp 5, PoolOp.dropOp ⟨1, 0, 5⟩] (by decide)
  · exact (C2_update_module_swap ⟨4, 0, [⟨0, 2, 8⟩]⟩ 9).2.1
  · exact (C2_update_module_swap ⟨4, 0, [⟨0, 2, 8⟩]⟩ 9).2.2.1

/-- C6: a first instantiation failure whose message contains "instance
count too high" replaces the store and retries exactly once (the second
attempt's outcome is final, its error propagating whatever its kind); a
failure of any other kind is returned without retry; a first-attempt
success is used directly. -/
theorem C6_too_many_instances_retry (c : Nat) (o : InstOracle) :
    (o.first = .ok () → run_store_phase c o =
        .ok ⟨u32SaturatingAdd1 (if MAX_STORE_INSTANTIATIONS ≤ c then 0 else c),
             decide (MAX_STORE_INSTANTIATIONS ≤ c), false⟩) ∧
    (∀ e, o.first = .error e → isTooMany e = true →
      (o.second = .ok () → run_store_phase c o =
          .ok ⟨u32SaturatingAdd1 0, decide (MAX_STORE_INSTANTIATIONS ≤ c), true⟩) ∧
      (∀ e2, o.second = .error e2 → run_store_phase c o = .error e2)) ∧
    (∀ e, o.first = .error e → isTooMany e = false →
        run_store_phase c o = .error e) := by
  refine ⟨fun h1 => ?_, fun e h1 h2 => ⟨fun h3 => ?_, fun e2 h3 => ?_⟩,
          fun e h1 h2 => ?_⟩
  · unfold run_store_phase
    rw [h1]
  · unfold run_store_phase
    rw [h1, h3]
    simp [h2]
  · unfold run_store_phase
    rw [h1, h3]
    simp [h2]
  · unfold run_store_phase
    rw [h1]
    simp [h2]

/-- Witness for C6: a too-many-instances failure followed by a successful
retry yields a recycled store with count one; an other-kind failure is
returned directly. -/
theorem C6_too_many_instances_retry_witness :
    run_store_phase 5 ⟨.error "instance count too high", .ok ()⟩ =
      .ok ⟨u32SaturatingAdd1 0, decide (MAX_STORE_INSTANTIATIONS ≤ 5), true⟩ ∧
    run_store_phase 5 ⟨.error "link failure", .ok ()⟩ = .error "link failure" := by
  constructor
  · exact ((C6_too_many_instances_retry 5
      ⟨.error "instance count too high", .ok ()⟩).2.1
      "instance count too high" rfl (by decide)).1 rfl
  · exact (C6_too_many_instances_retry 5
      ⟨.error "link failure", .ok ()⟩).2.2 "link failure" rfl (by decide)

/-- A successful run phase never leaves the instantiation count above
MAX_STORE_INSTANTIATIONS. -/
theorem run_store_phase_count_le (c : Nat) (o : InstOracle)
    (r : RunPhaseResult) (h : run_store_phase c o = .ok r) :
    r.count ≤ MAX_STORE_INSTANTIATIONS := by
  unfold run_store_phase at h
  split at h
  · injection h with h
    subst h
    by_cases hc : MAX_STORE_INSTANTIATIONS ≤ c
    · rw [if_pos hc]
      simp only [u32SaturatingAdd1, MAX_STORE_INSTANTIATIONS]
      omega
    · rw [if_neg hc]
      simp only [u32SaturatingAdd1, MAX_STORE_INSTANTIATIONS] at hc ⊢
      omega
  · split at h
    · split at h
      · injection h with h
        subst h
        simp only [u32SaturatingAdd1, MAX_STORE_INSTANTIATIONS]
        omega
      · exact absurd h (by simp)
    · exact absurd h (by simp)

/-- Along successful runs, counts below the cap grow by exactly one. -/
theorem run_counts_eq_of_le (n : Nat) (h : n ≤ MAX_STORE_INSTANTIATIONS) :
    run_counts n = n := by
  induction n with
  | zero => rfl
  | succ k ih =>
    simp only [MAX_STORE_INSTANTIATIONS] at h
    have hk : ¬ (MAX_STORE_INSTANTIATIONS ≤ k) := by
      simp only [MAX_STORE_INSTANTIATIONS]
      omega
    unfold run_counts
    rw [ih (by simp only [MAX_STORE_INSTANTIATIONS]; omega)]
    unfold run_store_phase
    simp only [if_neg hk]
    simp only [u32SaturatingAdd1, MAX_STORE_INSTANTIATIONS] at hk ⊢
    omega

/-- C7: a lease arriving with instantiation count at or above
MAX_STORE_INSTANTIATIONS (1000) gets a fresh store with the count reset
to zero before use; the count is incremented with u32 saturation after a
successful instantiation; consequently a successful run phase never
leaves the count above 1000, after 1000 successful runs the count is
exactly 1000, and the 1001st run succeeds through pre-emptive recycling,
leaving count one. -/
theorem C7_instantiation_cap (c : Nat) (o : InstOracle) :
    (∀ r, run_store_phase c o = .ok r → r.count ≤ MAX_STORE_INSTANTIATIONS) ∧
    (MAX_STORE_INSTANTIATIONS ≤ c → o.first = .ok () →
        run_store_phase c o = .ok ⟨1, true, false⟩) ∧
    (run_counts 1000 = 1000 ∧
     run_store_phase (run_counts 1000) ⟨.ok (), .ok ()⟩ = .ok ⟨1, true, false⟩) ∧
    (∀ n, run_counts n ≤ MAX_STORE_INSTANTIATIONS) := by
  have h1000 : run_counts 1000 = 1000 :=
    run_counts_eq_of_le 1000 (by simp [MAX_STORE_INSTANTIATIONS])
  have hphase : ∀ c : Nat, MAX_STORE_INSTANTIATIONS ≤ c →
      run_store_phase c ⟨.ok (), .ok ()⟩ = .ok ⟨1, true, false⟩ := by
    intro c hc
    unfold run_store_phase
    rw [if_pos hc]
    simp [hc, u32SaturatingAdd1]
  refine ⟨fun r h => run_store_phase_count_le c o r h,
          fun hc h1 => ?_,
          ⟨h1000, by rw [h1000]; exact hphase 1000 (by simp [MAX_STORE_INSTANTIATIONS])⟩,
          fun n => ?_⟩
  · unfold run_store_phase
    rw [h1, if_pos hc]
    simp [hc, u32SaturatingAdd1]
  · cases n with
    | zero => simp [run_counts, MAX_STORE_INSTANTIATIONS]
    | succ k =>
      unfold run_counts
      cases h : run_store_phase (run_counts k) ⟨.ok (), .ok ()⟩ with
      | ok r => exact run_store_phase_count_le _ _ r h
      | error e => simp [MAX_STORE_INSTANTIATIONS]

/-- Witness for C7: at count 1000 a successful run phase recycles the
store and continues with count one. -/
theorem C7_instantiation_cap_witness :
    run_store_phase 1000 ⟨.ok (), .ok ()⟩ = .ok ⟨1, true, false⟩ ∧
    run_counts 17 ≤ MAX_STORE_INSTANTIATIONS := by
  exact ⟨(C7_instantiation_cap 1000 ⟨.ok (), .ok ()⟩).2.1 (by decide) rfl,
         (C7_instantiation_cap 0 ⟨.ok (), .ok ()⟩).2.2.2 17⟩

/-- Live permit counts under a capacity never exceed the capacity. -/
theorem semRun_le (cap : Nat) (ops : List SemOp) :
    ∀ live n, live ≤ cap → semRun cap live ops = some n → n ≤ cap := by
  induction ops with
  | nil =>
    intro live n h hr
    simp only [semRun, Option.some.injEq] at hr
    omega
  | cons op ops ih =>
    intro live n h hr
    cases op with
    | acquire =>
      unfold semRun semStep at hr
      by_cases hl : live < cap
      · rw [if_pos hl] at hr
        exact ih (live + 1) n hl hr
      · rw [if_neg hl] at hr
        exact absurd hr (by simp)
    | release =>
      unfold semRun semStep at hr
      by_cases hl : 0 < live
      · rw [if_pos hl] at hr
        exact ih (live - 1) n (by omega) hr
      · rw [if_neg hl] at hr
        exact absurd hr (by simp)

/-- C9 counterexample: a pool constructed with max_concurrency = 0 is
clamped to one semaphore permit (`max_concurrency.max(1)` in
WasmPool::new), so a single acquired lease is live and the number of live
leases exceeds K = 0, refuting the claim as stated. -/
theorem C9_concurrency_cap_cex :
    semRun (poolCap 0) 0 [SemOp.acquire] = some 1 ∧ ¬ (1 ≤ 0) := by decide

/-- C9 amended: for every sequence of lease acquisitions and releases on
a pool constructed with max_concurrency = K, the number of live leases
never exceeds max K 1, the clamped capacity the source installs. -/
theorem C9_concurrency_cap_amended (K : Nat) (ops : List SemOp) (n : Nat)
    (h : semRun (poolCap K) 0 ops = some n) : n ≤ poolCap K :=
  semRun_le (poolCap K) ops 0 n (by simp [poolCap]) h

/-- Witness for C9 amended: two acquisitions at capacity two stay within
the cap. -/
theorem C9_concurrency_cap_amended_witness :
    semRun (poolCap 2) 0 [SemOp.acquire, SemOp.acquire] = some 2 ∧
    2 ≤ poolCap 2 :=
  ⟨by decide, C9_concurrency_cap_amended 2 [SemOp.acquire, SemOp.acquire] 2 (by decide)⟩

/-- Finding the first hit of f equals the head of the filterMap image. -/
theorem findSome?_eq_head?_filterMap {α β : Type} (f : α → Option β) :
    ∀ l : List α, l.findSome? f = (l.filterMap f).head? := by
  intro l
  induction l with
  | nil => rfl
  | cons a l ih =>
    cases h : f a with
    | none =>
      rw [List.findSome?_cons_of_isNone _ (by simp [h]),
          List.filterMap_cons_none h]
      exact ih
    | some b =>
      rw [List.findSome?_cons_of_isSome _ (by simp [h]),
          List.filterMap_cons_some h, h]
      rfl

/-- C3 counterexample: a single candidate whose fs::metadata call fails
but which would compile. The claim as stated gives every candidate a
modification time (epoch when unreadable) and returns the first file that
compiles, so it returns the module; the source drops the candidate at the
metadata step and reports that no module compiles. -/
theorem C3_module_selection_cex :
    load_best_module [⟨"a.wasm", none, some 7⟩] =
      .error "no valid wasm modules found" ∧
    load_best_module_claimed [⟨"a.wasm", none, some 7⟩] = .ok 7 ∧
    ∀ m, load_best_module [⟨"a.wasm", none, some 7⟩] ≠ .ok m := by
  refine ⟨?_, ?_, fun m h => ?_⟩
  · simp [load_best_module, with_mtime, sortNewestFirst]
  · simp [load_best_module_claimed, sortNewestFirst]
  · simp [load_best_module, with_mtime, sortNewestFirst] at h

/-- C3 amended: module selection gathers modification times for the
candidates whose fs metadata is readable (a candidate whose metadata
cannot be read at all is dropped), treating an unreadable modification
time as the epoch; it sorts those candidates newest-first, attempts
compilation in that order, returns the first one that compiles, and
produces an error (leaving the previous module live) when none compiles. -/
theorem C3_module_selection_amended :
    (∀ (cs : List Candidate) (c : Candidate), c ∈ cs →
      (c.fileMeta = some none → (0, c) ∈ with_mtime cs) ∧
      (∀ t, c.fileMeta = some (some t) → (t, c) ∈ with_mtime cs) ∧
      (c.fileMeta = none → ∀ t, (t, c) ∉ with_mtime cs)) ∧
    (∀ l : List (Nat × Candidate),
        List.Pairwise (fun a b : Nat × Candidate => b.1 ≤ a.1) (sortNewestFirst l) ∧
        List.Perm (sortNewestFirst l) l) ∧
    (∀ cs m, load_best_module cs = .ok m ↔
        ((sortNewestFirst (with_mtime cs)).filterMap fun tc => tc.2.compiles).head?
          = some m) ∧
    (∀ cs, (∀ tc ∈ sortNewestFirst (with_mtime cs), tc.2.compiles = none) →
        load_best_module cs = .error "no valid wasm modules found") := by
  refine ⟨fun cs c hc => ⟨fun h0 => ?_, fun t ht => ?_, fun h0 t ht => ?_⟩,
          fun l => ⟨?_, ?_⟩, fun cs m => ?_, fun cs hall => ?_⟩
  · simp only [with_mtime, List.mem_filterMap]
    exact ⟨c, hc, by rw [h0]⟩
  · simp only [with_mtime, List.mem_filterMap]
    exact ⟨c, hc, by rw [ht]⟩
  · simp only [with_mtime, List.mem_filterMap] at ht
    obtain ⟨a, _, hfa⟩ := ht
    cases hma : a.fileMeta with
    | none => rw [hma] at hfa; exact Option.noConfusion hfa
    | some mt =>
      cases mt with
      | none =>
        rw [hma] at hfa
        simp only [Option.some.injEq, Prod.mk.injEq] at hfa
        rw [← hfa.2, hma] at h0
        exact Option.noConfusion h0
      | some u =>
        rw [hma] at hfa
        simp only [Option.some.injEq, Prod.mk.injEq] at hfa
        rw [← hfa.2, hma] at h0
        exact Option.noConfusion h0
  · exact (List.sorted_mergeSort
      (fun a b c hab hbc => by
        simp only [decide_eq_true_eq] at *
        exact le_trans hbc hab)
      (fun a b => by
        simp only [Bool.or_eq_true, decide_eq_true_eq]
        exact Nat.le_total b.1 a.1) l).imp
      (fun h => of_decide_eq_true h)
  · exact List.mergeSort_perm l _
  · unfold load_best_module
    rw [findSome?_eq_head?_filterMap]
    cases h : ((sortNewestFirst (with_mtime cs)).filterMap
        fun tc => tc.2.compiles).head? with
    | none => simp
    | some k => simp
  · unfold load_best_module
    rw [List.findSome?_eq_none_iff.mpr hall]

/-- Witness for C3 amended at concrete candidate lists: an epoch-tagged
candidate appears in the gathered list, a compiling candidate is
returned, and a non-compiling list yields the error. -/
theorem C3_module_selection_amended_witness :
    (0, (⟨"b", some none, none⟩ : Candidate)) ∈
      with_mtime [⟨"a", some (some 5), some 1⟩, ⟨"b", some none, none⟩] ∧
    load_best_module [(⟨"a", some (some 5), some 1⟩ : Candidate)] = .ok 1 ∧
    load_best_module [(⟨"a", some (some 5), none⟩ : Candidate)] =
      .error "no valid wasm modules found" := by
  refine ⟨?_, ?_, ?_⟩
  · exact (C3_module_selection_amended.1
      [⟨"a", some (some 5), some 1⟩, ⟨"b", some none, none⟩]
      ⟨"b", some none, none⟩ (by simp)).1 rfl
  · exact (C3_module_selection_amended.2.2.1
      [⟨"a", some (some 5), some 1⟩] 1).mpr
      (by simp [sortNewestFirst, with_mtime])
  · exact C3_module_selection_amended.2.2.2
      [⟨"a", some (some 5), none⟩]
      (by simp [sortNewestFirst, with_mtime])

/-- C8: pg_exec returns the rows-affected count saturated to INT32_MAX
when the backend operation succeeds, -2 when the SQL argument is
unreadable from guest memory or not UTF-8, and -1 on any backend error;
with no relational URL configured the host-level exec itself yields the
disabled error, so such a call also returns -1. -/
theorem C8_pg_exec_codes (pg : PostgresHost) (mem : Option Mem) (sp sl : Int) :
    (read_guest_bytes mem sp sl = .error () → pg_exec pg mem sp sl = (-2, [])) ∧
    (∀ b ev, read_guest_bytes mem sp sl = .ok (b, ev) → utf8Decode b = none →
        pg_exec pg mem sp sl = (-2, ev)) ∧
    (∀ b ev sql, read_guest_bytes mem sp sl = .ok (b, ev) →
        utf8Decode b = some sql →
      (∀ n bev, PostgresHost.exec pg sql = (.ok n, bev) →
          pg_exec pg mem sp sl = (rowsToI32 n, ev ++ bev) ∧
          rowsToI32 n = min (n : Int) (2 ^ 31 - 1)) ∧
      (∀ e bev, PostgresHost.exec pg sql = (.error e, bev) →
          pg_exec pg mem sp sl = (-1, ev ++ bev))) ∧
    (pg.pool = none → ∀ sql,
        PostgresHost.exec pg sql = (.error PostgresHost.disabled_error, [])) := by
  refine ⟨fun hr => ?_, fun b ev hr hd => ?_,
          fun b ev sql hr hd => ⟨fun n bev hx => ⟨?_, ?_⟩, fun e bev hx => ?_⟩,
          fun hp sql => ?_⟩
  · unfold pg_exec
    rw [hr]
  · unfold pg_exec
    rw [hr]
    dsimp only
    rw [hd]
  · unfold pg_exec
    rw [hr]
    dsimp only
    rw [hd]
    dsimp only
    rw [hx]
  · unfold rowsToI32
    rw [Nat.cast_min]
    norm_num
  · unfold pg_exec
    rw [hr]
    dsimp only
    rw [hd]
    dsimp only
    rw [hx]
  · unfold PostgresHost.exec
    rw [hp]

/-- Witness for C8: a huge rows-affected count is saturated to INT32_MAX,
and with the adapter disabled the backend answers the disabled error so
the call returns -1. -/
theorem C8_pg_exec_codes_witness :
    pg_exec ⟨some ⟨fun _ => .ok (10 ^ 20), fun _ => .error ""⟩⟩
        (some [65]) 0 1 =
      (2147483647, [Event.memRead 0 1, Event.backendCall "pg execute"]) ∧
    pg_exec ⟨none⟩ (some [65]) 0 1 =
      (-1, [Event.memRead 0 1]) := by
  constructor
  · have h := ((C8_pg_exec_codes
      ⟨some ⟨fun _ => .ok (10 ^ 20), fun _ => .error ""⟩⟩ (some [65]) 0 1).2.2.1
      [65] [Event.memRead 0 1] [65] rfl rfl).1 (10 ^ 20)
      [Event.backendCall "pg execute"] rfl
    rw [h.1]
    norm_num [rowsToI32]
  · have h := ((C8_pg_exec_codes ⟨none⟩ (some [65]) 0 1).2.2.1
      [65] [Event.memRead 0 1] [65] rfl rfl).2 PostgresHost.disabled_error [] rfl
    rw [h]
    rfl

/-- C10: with the KV adapter disabled (no REDIS_URL), every KV host call
with otherwise valid arguments returns its backend-error code without
performing backend I/O: redis_get returns -4 and redis_set, redis_set_ex,
redis_exists and redis_del each return -1, the only logged events being
the guest-memory reads of the arguments. -/
theorem C10_disabled_kv_codes (r : RedisHost) (hdis : r.pool = none) :
    (∀ mem kp kl op ol kb ev key, ¬ ol < 0 →
        read_guest_bytes mem kp kl = .ok (kb, ev) → utf8Decode kb = some key →
        redis_get r mem kp kl op ol = (-4, ev) ∧
        ∀ e ∈ ev, e.isBackendCall = false) ∧
    (∀ mem kp kl vp vl kb kev vb vev key,
        read_guest_bytes mem kp kl = .ok (kb, kev) →
        read_guest_bytes mem vp vl = .ok (vb, vev) → utf8Decode kb = some key →
        redis_set r mem kp kl vp vl = (-1, kev ++ vev) ∧
        ∀ e ∈ kev ++ vev, e.isBackendCall = false) ∧
    (∀ mem kp kl vp vl ttl kb kev vb vev key, ¬ ttl < 0 →
        read_guest_bytes mem kp kl = .ok (kb, kev) →
        read_guest_bytes mem vp vl = .ok (vb, vev) → utf8Decode kb = some key →
        redis_set_ex r mem kp kl vp vl ttl = (-1, kev ++ vev) ∧
        ∀ e ∈ kev ++ vev, e.isBackendCall = false) ∧
    (∀ mem kp kl kb ev key,
        read_guest_bytes mem kp kl = .ok (kb, ev) → utf8Decode kb = some key →
        redis_exists r mem kp kl = (-1, ev) ∧
        ∀ e ∈ ev, e.isBackendCall = false) ∧
    (∀ mem kp kl kb ev key,
        read_guest_bytes mem kp kl = .ok (kb, ev) → utf8Decode kb = some key →
        redis_del r mem kp kl = (-1, ev) ∧
        ∀ e ∈ ev, e.isBackendCall = false) := by
  refine ⟨fun mem kp kl op ol kb ev key hol hr hd => ⟨?_, ?_⟩,
          fun mem kp kl vp vl kb kev vb vev key hrk hrv hd => ⟨?_, ?_⟩,
          fun mem kp kl vp vl ttl kb kev vb vev key httl hrk hrv hd => ⟨?_, ?_⟩,
          fun mem kp kl kb ev key hr hd => ⟨?_, ?_⟩,
          fun mem kp kl kb ev key hr hd => ⟨?_, ?_⟩⟩
  · unfold redis_get
    rw [if_neg hol, hr]
    dsimp only
    rw [hd]
    unfold RedisHost.get
    rw [hdis]
    simp
  · rw [read_guest_bytes_ok_ev mem kp kl kb ev hr]
    simp [Event.isBackendCall]
  · unfold redis_set
    rw [hrk]
    dsimp only
    rw [hrv]
    dsimp only
    rw [hd]
    unfold RedisHost.set
    rw [hdis]
    simp
  · rw [read_guest_bytes_ok_ev mem kp kl kb kev hrk,
        read_guest_bytes_ok_ev mem vp vl vb vev hrv]
    simp [Event.isBackendCall]
  · unfold redis_set_ex
    rw [if_neg httl, hrk]
    dsimp only
    rw [hrv]
    dsimp only
    rw [hd]
    unfold RedisHost.set_ex
    rw [hdis]
    simp
  · rw [read_guest_bytes_ok_ev mem kp kl kb kev hrk,
        read_guest_bytes_ok_ev mem vp vl vb vev hrv]
    simp [Event.isBackendCall]
  · unfold redis_exists
    rw [hr]
    dsimp only
    rw [hd]
    unfold RedisHost.key_exists
    rw [hdis]
    simp
  · rw [read_guest_bytes_ok_ev mem kp kl kb ev hr]
    simp [Event.isBackendCall]
  · unfold redis_del
    rw [hr]
    dsimp only
    rw [hd]
    unfold RedisHost.del
    rw [hdis]
    simp
  · rw [read_guest_bytes_ok_ev mem kp kl kb ev hr]
    simp [Event.isBackendCall]

/-- Witness for C10: against a disabled host with memory [107, 108] and
in-bounds arguments, all five calls return their backend-error codes. -/
theorem C10_disabled_kv_codes_witness :
    redis_get ⟨none⟩ (some [107, 108]) 0 1 0 0 = (-4, [Event.memRead 0 1]) ∧
    redis_set ⟨none⟩ (some [107, 108]) 0 1 1 1 =
      (-1, [Event.memRead 0 1] ++ [Event.memRead 1 1]) ∧
    redis_set_ex ⟨none⟩ (some [107, 108]) 0 1 1 1 5 =
      (-1, [Event.memRead 0 1] ++ [Event.memRead 1 1]) ∧
    redis_exists ⟨none⟩ (some [107, 108]) 0 1 = (-1, [Event.memRead 0 1]) ∧
    redis_del ⟨none⟩ (some [107, 108]) 0 1 = (-1, [Event.memRead 0 1]) := by
  refine ⟨?_, ?_, ?_, ?_, ?_⟩
  · exact ((C10_disabled_kv_codes ⟨none⟩ rfl).1 (some [107, 108]) 0 1 0 0
      [107] [Event.memRead 0 1] [107] (by decide) rfl rfl).1
  · exact ((C10_disabled_kv_codes ⟨none⟩ rfl).2.1 (some [107, 108]) 0 1 1 1
      [107] [Event.memRead 0 1] [108] [Event.memRead 1 1] [107] rfl rfl rfl).1
  · exact ((C10_disabled_kv_codes ⟨none⟩ rfl).2.2.1 (some [107, 108]) 0 1 1 1 5
      [107] [Event.memRead 0 1] [108] [Event.memRead 1 1] [107]
      (by decide) rfl rfl rfl).1
  · exact ((C10_disabled_kv_codes ⟨none⟩ rfl).2.2.2.1 (some [107, 108]) 0 1
      [107] [Event.memRead 0 1] [107] rfl rfl).1
  · exact ((C10_disabled_kv_codes ⟨none⟩ rfl).2.2.2.2 (some [107, 108]) 0 1
      [107] [Event.memRead 0 1] [107] rfl rfl).1

/-- Memory-read plus backend-call event lists contain no write event. -/
theorem no_write_in_read_backend_events (p l : Int) (bev : List Event)
    (hb : ∀ e ∈ bev, e.isBackendCall = true) :
    ∀ e ∈ [Event.memRead p l] ++ bev, e.isMemWrite = false := by
  intro e he
  rcases List.mem_append.mp he with h | h
  · simp only [List.mem_singleton] at h
    subst h
    rfl
  · exact Event.not_memWrite_of_backendCall e (hb e h)

/-- C4 counterexample. First: redis_set with a negative value pointer
still reads the key from guest memory before rejecting the value
arguments, so the call does not return "without reading guest memory".
Second: pg_query with a negative out_ptr reads the SQL from guest memory
and runs the backend operation; here (adapter disabled) it returns the
backend-error code -1, not an argument-error code. Both refute the claim
as stated. -/
theorem C4_negative_args_cex :
    (redis_set ⟨none⟩ (some [0]) 0 1 (-1) 0 = (-2, [Event.memRead 0 1]) ∧
      ([Event.memRead 0 1] : List Event) ≠ []) ∧
    (pg_query ⟨none⟩ (some [0]) 0 0 (-1) 0 = (-1, [Event.memRead 0 0]) ∧
      ¬ ((-1 : Int) = -2 ∨ (-1 : Int) = -3)) := by decide

/-- C4 amended: a negative pointer or length among the arguments the call
validates before its first memory access (the SQL or key pointer and
length, the value pointer and length for set/set_ex relative to later
accesses, and out_len) yields the call's argument-error code (-2 or -3,
or -1 for exists/del) with no memory access and no backend I/O at all; a
negative value pointer or length in set/set_ex still returns -2 with no
write and no backend I/O, though the key may already have been read; a
negative out_ptr in pg_query/redis_get is rejected only at the write
step, and the call never writes guest memory. -/
theorem C4_negative_args_amended :
    (∀ pg mem sp sl, (sp < 0 ∨ sl < 0) → pg_exec pg mem sp sl = (-2, [])) ∧
    (∀ pg mem sp sl op ol, (sp < 0 ∨ sl < 0 ∨ ol < 0) →
        pg_query pg mem sp sl op ol = (-3, [])) ∧
    (∀ pg mem sp sl op ol, op < 0 →
        ∀ e ∈ (pg_query pg mem sp sl op ol).2, e.isMemWrite = false) ∧
    (∀ r mem kp kl op ol, (kp < 0 ∨ kl < 0 ∨ ol < 0) →
        redis_get r mem kp kl op ol = (-3, [])) ∧
    (∀ r mem kp kl op ol, op < 0 →
        ∀ e ∈ (redis_get r mem kp kl op ol).2, e.isMemWrite = false) ∧
    (∀ r mem kp kl vp vl, (kp < 0 ∨ kl < 0) →
        redis_set r mem kp kl vp vl = (-2, [])) ∧
    (∀ r mem kp kl vp vl, (vp < 0 ∨ vl < 0) →
        (redis_set r mem kp kl vp vl).1 = -2 ∧
        ∀ e ∈ (redis_set r mem kp kl vp vl).2,
          e.isMemWrite = false ∧ e.isBackendCall = false) ∧
    (∀ r mem kp kl vp vl ttl, (kp < 0 ∨ kl < 0) →
        redis_set_ex r mem kp kl vp vl ttl = (-2, [])) ∧
    (∀ r mem kp kl vp vl ttl, (vp < 0 ∨ vl < 0) →
        (redis_set_ex r mem kp kl vp vl ttl).1 = -2 ∧
        ∀ e ∈ (redis_set_ex r mem kp kl vp vl ttl).2,
          e.isMemWrite = false ∧ e.isBackendCall = false) ∧
    (∀ r mem kp kl, (kp < 0 ∨ kl < 0) → redis_exists r mem kp kl = (-1, [])) ∧
    (∀ r mem kp kl, (kp < 0 ∨ kl < 0) → redis_del r mem kp kl = (-1, [])) := by
  refine ⟨fun pg mem sp sl h => ?_, fun pg mem sp sl op ol h => ?_,
          fun pg mem sp sl op ol hop => ?_, fun r mem kp kl op ol h => ?_,
          fun r mem kp kl op ol hop => ?_, fun r mem kp kl vp vl h => ?_,
          fun r mem kp kl vp vl h => ?_, fun r mem kp kl vp vl ttl h => ?_,
          fun r mem kp kl vp vl ttl h => ?_, fun r mem kp kl h => ?_,
          fun r mem kp kl h => ?_⟩
  · unfold pg_exec
    rw [read_guest_bytes_neg mem sp sl h]
  · unfold pg_query
    by_cases hol : ol < 0
    · rw [if_pos hol]
    · rw [if_neg hol,
          read_guest_bytes_neg mem sp sl
            (by rcases h with h | h | h
                exacts [Or.inl h, Or.inr h, absurd h hol])]
  · unfold pg_query
    by_cases hol : ol < 0
    · rw [if_pos hol]
      intro e he
      simp at he
    · rw [if_neg hol]
      cases hr : read_guest_bytes mem sp sl with
      | error u =>
        intro e he
        simp at he
      | ok p =>
        obtain ⟨b, ev⟩ := p
        have hev := read_guest_bytes_ok_ev mem sp sl b ev hr
        subst hev
        dsimp only
        cases hd : utf8Decode b with
        | none =>
          intro e he
          simp only [List.mem_singleton] at he
          subst he
          rfl
        | some sql =>
          dsimp only
          rcases hq : PostgresHost.query_payload pg sql with ⟨res, bev⟩
          have hb := query_payload_ev pg sql
          rw [hq] at hb
          cases res with
          | error e0 =>
            dsimp only
            exact no_write_in_read_backend_events sp sl bev hb
          | ok payload =>
            dsimp only
            by_cases hsz : ol < usizeToI32 payload.length
            · rw [if_pos hsz]
              exact no_write_in_read_backend_events sp sl bev hb
            · rw [if_neg hsz, write_guest_bytes_neg mem op payload hop]
              exact no_write_in_read_backend_events sp sl bev hb
  · unfold redis_get
    by_cases hol : ol < 0
    · rw [if_pos hol]
    · rw [if_neg hol,
          read_guest_bytes_neg mem kp kl
            (by rcases h with h | h | h
                exacts [Or.inl h, Or.inr h, absurd h hol])]
  · unfold redis_get
    by_cases hol : ol < 0
    · rw [if_pos hol]
      intro e he
      simp at he
    · rw [if_neg hol]
      cases hr : read_guest_bytes mem kp kl with
      | error u =>
        intro e he
        simp at he
      | ok p =>
        obtain ⟨b, ev⟩ := p
        have hev := read_guest_bytes_ok_ev mem kp kl b ev hr
        subst hev
        dsimp only
        cases hd : utf8Decode b with
        | none =>
          intro e he
          simp only [List.mem_singleton] at he
          subst he
          rfl
        | some key =>
          dsimp only
          rcases hq : RedisHost.get r key with ⟨res, bev⟩
          have hb := redisHost_get_ev r key
          rw [hq] at hb
          cases res with
          | error e0 =>
            dsimp only
            exact no_write_in_read_backend_events kp kl bev hb
          | ok vopt =>
            cases vopt with
            | none =>
              dsimp only
              exact no_write_in_read_backend_events kp kl bev hb
            | some val =>
              dsimp only
              by_cases hsz : ol < usizeToI32 val.length
              · rw [if_pos hsz]
                exact no_write_in_read_backend_events kp kl bev hb
              · rw [if_neg hsz, write_guest_bytes_neg mem op val hop]
                exact no_write_in_read_backend_events kp kl bev hb
  · unfold redis_set
    rw [read_guest_bytes_neg mem kp kl h]
  · unfold redis_set
    cases hr : read_guest_bytes mem kp kl with
    | error u => exact ⟨rfl, by intro e he; simp at he⟩
    | ok p =>
      obtain ⟨kb, kev⟩ := p
      have hev := read_guest_bytes_ok_ev mem kp kl kb kev hr
      subst hev
      dsimp only
      rw [read_guest_bytes_neg mem vp vl h]
      refine ⟨rfl, fun e he => ?_⟩
      simp only [List.mem_singleton] at he
      subst he
      exact ⟨rfl, rfl⟩
  · unfold redis_set_ex
    by_cases httl : ttl < 0
    · rw [if_pos httl]
    · rw [if_neg httl, read_guest_bytes_neg mem kp kl h]
  · unfold redis_set_ex
    by_cases httl : ttl < 0
    · rw [if_pos httl]
      exact ⟨rfl, by intro e he; simp at he⟩
    · rw [if_neg httl]
      cases hr : read_guest_bytes mem kp kl with
      | error u => exact ⟨rfl, by intro e he; simp at he⟩
      | ok p =>
        obtain ⟨kb, kev⟩ := p
        have hev := read_guest_bytes_ok_ev mem kp kl kb kev hr
        subst hev
        dsimp only
        rw [read_guest_bytes_neg mem vp vl h]
        refine ⟨rfl, fun e he => ?_⟩
        simp only [List.mem_singleton] at he
        subst he
        exact ⟨rfl, rfl⟩
  · unfold redis_exists
    rw [read_guest_bytes_neg mem kp kl h]
  · unfold redis_del
    rw [read_guest_bytes_neg mem kp kl h]

/-- Witness for C4 amended, exercising each component at a concrete
negative argument. -/
theorem C4_negative_args_amended_witness :
    pg_exec ⟨none⟩ (some [0]) (-1) 0 = (-2, []) ∧
    pg_query ⟨none⟩ (some [0]) 0 0 0 (-1) = (-3, []) ∧
    (∀ e ∈ (pg_query ⟨none⟩ (some [0]) 0 0 (-1) 0).2, e.isMemWrite = false) ∧
    redis_get ⟨none⟩ (some [0]) (-1) 0 0 0 = (-3, []) ∧
    (∀ e ∈ (redis_get ⟨none⟩ (some [0]) 0 1 (-1) 0).2, e.isMemWrite = false) ∧
    redis_set ⟨none⟩ (some [0]) (-1) 0 0 0 = (-2, []) ∧
    (redis_set ⟨none⟩ (some [0]) 0 1 (-1) 0).1 = -2 ∧
    redis_set_ex ⟨none⟩ (some [0]) (-1) 0 0 0 5 = (-2, []) ∧
    (redis_set_ex ⟨none⟩ (some [0]) 0 1 (-1) 0 5).1 = -2 ∧
    redis_exists ⟨none⟩ (some [0]) (-1) 0 = (-1, []) ∧
    redis_del ⟨none⟩ (some [0]) (-1) 0 = (-1, []) := by
  refine ⟨?_, ?_, ?_, ?_, ?_, ?_, ?_, ?_, ?_, ?_, ?_⟩
  · exact C4_negative_args_amended.1 ⟨none⟩ (some [0]) (-1) 0 (Or.inl (by decide))
  · exact C4_negative_args_amended.2.1 ⟨none⟩ (some [0]) 0 0 0 (-1)
      (Or.inr (Or.inr (by decide)))
  · exact C4_negative_args_amended.2.2.1 ⟨none⟩ (some [0]) 0 0 (-1) 0 (by decide)
  · exact C4_negative_args_amended.2.2.2.1 ⟨none⟩ (some [0]) (-1) 0 0 0
      (Or.inl (by decide))
  · exact C4_negative_args_amended.2.2.2.2.1 ⟨none⟩ (some [0]) 0 1 (-1) 0
      (by decide)
  · exact C4_negative_args_amended.2.2.2.2.2.1 ⟨none⟩ (some [0]) (-1) 0 0 0
      (Or.inl (by decide))
  · exact (C4_negative_args_amended.2.2.2.2.2.2.1 ⟨none⟩ (some [0]) 0 1 (-1) 0
      (Or.inl (by decide))).1
  · exact C4_negative_args_amended.2.2.2.2.2.2.2.1 ⟨none⟩ (some [0]) (-1) 0 0 0 5
      (Or.inl (by decide))
  · exact (C4_negative_args_amended.2.2.2.2.2.2.2.2.1 ⟨none⟩ (some [0]) 0 1 (-1) 0 5
      (Or.inl (by decide))).1
  · exact C4_negative_args_amended.2.2.2.2.2.2.2.2.2.1 ⟨none⟩ (some [0]) (-1) 0
      (Or.inl (by decide))
  · exact C4_negative_args_amended.2.2.2.2.2.2.2.2.2.2 ⟨none⟩ (some [0]) (-1) 0
      (Or.inl (by decide))

/-- The usize-to-i32 cast is exact below 2^31. -/
theorem usizeToI32_small (n : Nat) (h : n < 2 ^ 31) :
    usizeToI32 n = (n : Int) := by
  unfold usizeToI32
  have hm : n % 2 ^ 32 = n := Nat.mod_eq_of_lt (by omega)
  rw [hm, if_pos h]

/-- Key-value backend whose every key holds the one-byte value [42]; used
by the C5 counterexample and witness. -/
def kvSmall : RedisBackend :=
  ⟨fun _ => .ok (some [42]), fun _ _ => .error "", fun _ _ _ => .error "",
   fun _ => .error "", fun _ => .error ""⟩

/-- Key-value backend whose every key holds 2^31 zero bytes; used by the
C5 counterexample to overflow the `val.len() as i32` cast. -/
def kvHuge : RedisBackend :=
  ⟨fun _ => .ok (some (List.replicate (2 ^ 31) 0)), fun _ _ => .error "",
   fun _ _ _ => .error "", fun _ => .error "", fun _ => .error ""⟩

/-- Relational backend whose query payload is the two bytes of "[]"; used
by the C5 amended witness. -/
def pgSmall : PgBackend := ⟨fun _ => .ok 0, fun _ => .ok [91, 93]⟩

/-- C5 counterexample. First: with out_len = -1 and a stored value of
one byte (longer than out_len), redis_get returns -3 through the early
negative-out_len guard, not -2. Second: with a stored value of 2^31
bytes and out_len = 0, the source's `(val.len() as i32) > out_len` check
wraps to -2^31 and fails to trigger, so the call falls through to the
guest write, which fails on bounds, returning -3 instead of -2. -/
theorem C5_buffer_too_small_cex :
    (redis_get ⟨some kvSmall⟩ (some [107]) 0 1 0 (-1) = (-3, []) ∧
      ¬ ((-3 : Int) = -2)) ∧
    (redis_get ⟨some kvHuge⟩ (some [107]) 0 1 0 0 =
        (-3, [Event.memRead 0 1, Event.backendCall "redis GET"]) ∧
      (List.replicate (2 ^ 31) (0 : Nat)).length = 2 ^ 31 ∧
      (0 : Int) < 2 ^ 31 ∧ ¬ ((-3 : Int) = -2)) := by
  refine ⟨⟨by decide, by decide⟩,
          ⟨?_, by rw [List.length_replicate], by norm_num, by decide⟩⟩
  unfold redis_get
  rw [if_neg (by decide : ¬ (0 : Int) < 0),
      show read_guest_bytes (some [107]) 0 1 = .ok ([107], [Event.memRead 0 1])
        from rfl]
  dsimp only
  rw [show utf8Decode [107] = some [107] from rfl]
  dsimp only
  rw [show RedisHost.get ⟨some kvHuge⟩ [107] =
        (.ok (some (List.replicate (2 ^ 31) 0)), [Event.backendCall "redis GET"])
        from rfl]
  dsimp only
  rw [List.length_replicate]
  rw [if_neg (by
    rw [show usizeToI32 (2 ^ 31) = ((2 ^ 31 : Nat) : Int) - 2 ^ 32 by
      unfold usizeToI32
      rw [Nat.mod_eq_of_lt (by norm_num), if_neg (by norm_num)]]
    push_cast
    norm_num)]
  rw [show write_guest_bytes (some [107]) 0 (List.replicate (2 ^ 31) 0) =
        .error () by
    unfold write_guest_bytes
    rw [if_neg (by decide : ¬ (0 : Int) < 0)]
    dsimp only
    rw [List.length_replicate]
    rw [if_neg (by norm_num)]]
  rfl

/-- C5 amended: for every pg_query and redis_get call with a
non-negative out_len where the required output (serialized JSON payload,
respectively stored value) is longer than out_len bytes and shorter than
2^31 bytes, the call returns -2 and writes nothing to guest memory. -/
theorem C5_buffer_too_small_amended :
    (∀ (r : RedisHost) mem kp kl op ol kb ev key val bev,
        ¬ ol < 0 → read_guest_bytes mem kp kl = .ok (kb, ev) →
        utf8Decode kb = some key →
        RedisHost.get r key = (.ok (some val), bev) →
        val.length < 2 ^ 31 → ol < (val.length : Int) →
        redis_get r mem kp kl op ol = (-2, ev ++ bev) ∧
        ∀ e ∈ ev ++ bev, e.isMemWrite = false) ∧
    (∀ pg mem sp sl op ol sb ev sql payload bev,
        ¬ ol < 0 → read_guest_bytes mem sp sl = .ok (sb, ev) →
        utf8Decode sb = some sql →
        PostgresHost.query_payload pg sql = (.ok payload, bev) →
        payload.length < 2 ^ 31 → ol < (payload.length : Int) →
        pg_query pg mem sp sl op ol = (-2, ev ++ bev) ∧
        ∀ e ∈ ev ++ bev, e.isMemWrite = false) := by
  constructor
  · intro r mem kp kl op ol kb ev key val bev hol hr hd hq hlen hsz
    have hev := read_guest_bytes_ok_ev mem kp kl kb ev hr
    have hb := redisHost_get_ev r key
    rw [hq] at hb
    constructor
    · unfold redis_get
      rw [if_neg hol, hr]
      dsimp only
      rw [hd]
      dsimp only
      rw [hq]
      dsimp only
      rw [if_pos (by rw [usizeToI32_small val.length hlen]; exact hsz)]
    · subst hev
      exact no_write_in_read_backend_events kp kl bev hb
  · intro pg mem sp sl op ol sb ev sql payload bev hol hr hd hq hlen hsz
    have hev := read_guest_bytes_ok_ev mem sp sl sb ev hr
    have hb := query_payload_ev pg sql
    rw [hq] at hb
    constructor
    · unfold pg_query
      rw [if_neg hol, hr]
      dsimp only
      rw [hd]
      dsimp only
      rw [hq]
      dsimp only
      rw [if_pos (by rw [usizeToI32_small payload.length hlen]; exact hsz)]
    · subst hev
      exact no_write_in_read_backend_events sp sl bev hb

/-- Witness for C5 amended: a one-byte stored value with out_len 0 gives
-2 from redis_get; a two-byte payload with out_len 0 gives -2 from
pg_query; neither writes guest memory. -/
theorem C5_buffer_too_small_amended_witness :
    (redis_get ⟨some kvSmall⟩ (some [107]) 0 1 0 0 =
        (-2, [Event.memRead 0 1] ++ [Event.backendCall "redis GET"])) ∧
    (pg_query ⟨some pgSmall⟩ (some [65]) 0 1 0 0 =
        (-2, [Event.memRead 0 1] ++ [Event.backendCall "pg query"])) := by
  constructor
  · exact (C5_buffer_too_small_amended.1 ⟨some kvSmall⟩ (some [107]) 0 1 0 0
      [107] [Event.memRead 0 1] [107] [42] [Event.backendCall "redis GET"]
      (by decide) rfl rfl rfl (by norm_num) (by decide)).1
  · exact (C5_buffer_too_small_amended.2 ⟨some pgSmall⟩ (some [65]) 0 1 0 0
      [65] [Event.memRead 0 1] [65] [91, 93] [Event.backendCall "pg query"]
      (by decide) rfl rfl rfl (by norm_num) (by decide)).1

end Booster
